import Mathlib

/-!
Verification of the beehiiv RSS feed generator (api/rss.js).

The JavaScript source is shallowly embedded: strings are Lean String or
List Char, JavaScript optional fields are Option String, JavaScript
truthiness on strings (undefined, null and the empty string are falsy) is
made explicit, and the wall clock and Date formatting are passed in as
parameters. The two runtime functions, the request handler and the feed
renderer generateRSSFeed with its helpers escapeXml and cleanHtmlContent,
are translated definition by definition.
-/

/-- jsOr models the JavaScript expression a OR b where a is an optional
string: the default b is chosen when a is undefined or the empty string. -/
def jsOr (a : Option String) (b : String) : String :=
  match a with
  | some s => if s = "" then b else s
  | none => b

/-- jsTruthy models JavaScript truthiness of an optional string value:
false exactly when the value is undefined or the empty string. -/
def jsTruthy (a : Option String) : Bool :=
  match a with
  | some s => !(s == "")
  | none => false

/-- quoteChar is the double quote character, code 34. -/
def quoteChar : Char := Char.ofNat 34

/-- aposChar is the single quote character, code 39. -/
def aposChar : Char := Char.ofNat 39

/-- aposEntity is the five character XML entity reference the source
substitutes for the single quote: ampersand, hash, three, nine,
semicolon. -/
def aposEntity : List Char := "&#39;".data

/-- replaceChar c rep l models the JavaScript global regex replace of the
single character c by the string rep, scanning left to right. -/
def replaceChar (c : Char) (rep : List Char) : List Char → List Char
  | [] => []
  | x :: xs => if x = c then rep ++ replaceChar c rep xs else x :: replaceChar c rep xs

/-- escapeXmlL is the body of escapeXml from the source, on character
lists: five sequential global replacements, ampersand first, then the
angle brackets, then the double quote, then the single quote. -/
def escapeXmlL (s : List Char) : List Char :=
  replaceChar aposChar aposEntity
    (replaceChar quoteChar ("&quot;".data)
      (replaceChar '>' ("&gt;".data)
        (replaceChar '<' ("&lt;".data)
          (replaceChar '&' ("&amp;".data) s))))

/-- escapeXml translates the source helper: a falsy argument (here the
empty string) yields the empty string, otherwise the five replacements of
escapeXmlL are applied. -/
def escapeXml (s : String) : String :=
  if s = "" then "" else String.mk (escapeXmlL s.data)

/-- subst1 f l applies the character to string substitution f to every
character of l independently and concatenates the results. It is the
specification side, single pass description of escaping. -/
def subst1 (f : Char → List Char) : List Char → List Char
  | [] => []
  | c :: cs => f c ++ subst1 f cs

/-- escCharSpec is the per character escaping table stated by the spec:
each of the five special characters becomes its entity exactly once and
every other character is kept unchanged. -/
def escCharSpec (c : Char) : List Char :=
  if c = '&' then "&amp;".data
  else if c = '<' then "&lt;".data
  else if c = '>' then "&gt;".data
  else if c = quoteChar then "&quot;".data
  else if c = aposChar then aposEntity
  else [c]

/-- prefB p s decides whether s starts with the character list p. -/
def prefB : List Char → List Char → Bool
  | [], _ => true
  | _ :: _, [] => false
  | a :: as, b :: bs => a == b && prefB as bs

/-- substrB pat s decides whether pat occurs as a contiguous substring
of s. -/
def substrB (pat : List Char) : List Char → Bool
  | [] => pat.isEmpty
  | c :: cs => prefB pat (c :: cs) || substrB pat cs

/-- matchesCI pat s decides whether the lower case pattern pat is a
leading part of s up to ASCII case, modelling a case insensitive regex literal. -/
def matchesCI : List Char → List Char → Bool
  | [], _ => true
  | _ :: _, [] => false
  | t :: ts, c :: cs => c.toLower == t && matchesCI ts cs

/-- findClose close s scans s left to right for the earliest case
insensitive occurrence of close and returns the suffix after it, the
lazy body match of the source regex. -/
def findClose (close : List Char) : List Char → Option (List Char)
  | [] => none
  | c :: cs =>
    if matchesCI close (c :: cs) then some (List.drop close.length (c :: cs))
    else findClose close cs

/-- afterMatch tag close s attempts the source regex at the start of s:
the case insensitive open tag, a greedy run of characters other than the
closing angle bracket, that bracket, then the earliest case insensitive
close tag; it returns the suffix after the whole match. -/
def afterMatch (tag close : List Char) (s : List Char) : Option (List Char) :=
  if matchesCI tag s then
    match (List.drop tag.length s).dropWhile (fun c => c ≠ '>') with
    | [] => none
    | _ :: body => findClose close body
  else none

/-- stripTagGo is the fuelled scanner behind the global regex replace by
the empty string: at each position, either a whole match is removed and
scanning resumes after it, or one character is kept. The fuel only bounds
recursion; stripTag always supplies enough. -/
def stripTagGo (tag close : List Char) : Nat → List Char → List Char
  | 0, s => s
  | _ + 1, [] => []
  | fuel + 1, c :: cs =>
    match afterMatch tag close (c :: cs) with
    | some rest => stripTagGo tag close fuel rest
    | none => c :: stripTagGo tag close fuel cs

/-- stripTag tag close s removes every match of the source regex
(open tag, attributes, body, close tag, case insensitive) from s. -/
def stripTag (tag close : List Char) (s : List Char) : List Char :=
  stripTagGo tag close s.length s

/-- containsCI pat s decides whether pat occurs case insensitively
anywhere in s. -/
def containsCI (pat : List Char) : List Char → Bool
  | [] => pat.isEmpty
  | c :: cs => matchesCI pat (c :: cs) || containsCI pat cs

/-- cleanHtmlContent translates the source helper: a falsy argument
yields the empty string, otherwise script blocks are removed first and
style blocks second, both case insensitively and across lines. -/
def cleanHtmlContent (html : String) : String :=
  if html = "" then ""
  else String.mk
    (stripTag ("<style".data) ("</style>".data)
      (stripTag ("<script".data) ("</script>".data) html.data))

/-- FreeContent models the free field of a post content object. -/
structure FreeContent where
  web : Option String
deriving DecidableEq

/-- PostContent models the content field of a post record. -/
structure PostContent where
  free : Option FreeContent
deriving DecidableEq

/-- Post models one post record of the upstream JSON, every field
treated as possibly absent untrusted input. -/
structure Post where
  id : Option String
  status : Option String
  publish_date : Option String
  web_url : Option String
  title : Option String
  subtitle : Option String
  content : Option PostContent
deriving DecidableEq

/-- FeedConfig is the feed configuration object the handler passes to
generateRSSFeed. -/
structure FeedConfig where
  title : String
  description : String
  feedUrl : String
  authorEmail : String
deriving DecidableEq

/-- contentWeb p is the optional chain content free web of the source. -/
def contentWeb (p : Post) : Option String :=
  (p.content.bind fun c => c.free).bind fun f => f.web

/-- idString p models JavaScript template interpolation of the id field:
an absent value prints as the text undefined. -/
def idString (p : Post) : String :=
  match p.id with
  | some s => s
  | none => "undefined"

/-- postUrlOf translates the postUrl constant of the item mapping: the
web url of the post when truthy, else the constructed fallback. -/
def postUrlOf (feedUrl : String) (p : Post) : String :=
  jsOr p.web_url (feedUrl ++ "/post/" ++ idString p)

/-- pubDateOf translates the pubDate constant: the formatted publish
date when that field is truthy, else the render start time. fmtDate
stands for the composition of the Date constructor with toUTCString. -/
def pubDateOf (fmtDate : String → String) (currentDate : String) (p : Post) : String :=
  match p.publish_date with
  | some d => if d = "" then currentDate else fmtDate d
  | none => currentDate

/-- itemTitleOf translates the title constant of the item mapping. -/
def itemTitleOf (p : Post) : String :=
  escapeXml (jsOr p.title "Untitled Post")

/-- itemContentOf translates the content constant of the item mapping:
the free web content, else the subtitle, else the empty string, then
cleaned of script and style blocks. -/
def itemContentOf (p : Post) : String :=
  cleanHtmlContent (jsOr (contentWeb p) (jsOr p.subtitle ""))

/-- itemXml translates the template literal returned for each post; the
concatenation reproduces the source template character for character. -/
def itemXml (fmtDate : String → String) (currentDate feedUrl authorEmail : String)
    (p : Post) : String :=
  "\n    <item>\n      " ++
  "<title>" ++ itemTitleOf p ++ "</title>" ++ "\n      " ++
  "<link>" ++ postUrlOf feedUrl p ++ "</link>" ++ "\n      " ++
  "<guid>" ++ postUrlOf feedUrl p ++ "</guid>" ++ "\n      " ++
  "<pubDate>" ++ pubDateOf fmtDate currentDate p ++ "</pubDate>" ++ "\n      " ++
  "<author>" ++ authorEmail ++ "</author>" ++ "\n      " ++
  "<description><![CDATA[" ++ itemContentOf p ++ "]]></description>" ++
  "\n    </item>"

/-- selectedPosts translates the filter and slice steps of the source:
keep posts whose status equals confirmed, then the first twenty. -/
def selectedPosts (posts : List Post) : List Post :=
  (posts.filter fun p => p.status == some "confirmed").take 20

/-- channelXml translates the final template literal of generateRSSFeed;
the concatenation reproduces the source template character for
character, with the joined items spliced after the ttl element. -/
def channelXml (cfg : FeedConfig) (currentDate items : String) : String :=
  "<?xml version=\"1.0\" encoding=\"UTF-8\"?>\n<rss version=\"2.0\" xmlns:content=\"http://purl.org/rss/1.0/modules/content/\" xmlns:dc=\"http://purl.org/dc/elements/1.1/\">\n  <channel>\n    " ++
  "<title>" ++ escapeXml cfg.title ++ "</title>" ++ "\n    " ++
  "<link>" ++ cfg.feedUrl ++ "</link>" ++ "\n    " ++
  "<description>" ++ escapeXml cfg.description ++ "</description>" ++ "\n    " ++
  "<language>en-us</language>" ++ "\n    " ++
  "<lastBuildDate>" ++ currentDate ++ "</lastBuildDate>" ++ "\n    " ++
  "<managingEditor>" ++ cfg.authorEmail ++ "</managingEditor>" ++ "\n    " ++
  "<webMaster>" ++ cfg.authorEmail ++ "</webMaster>" ++ "\n    " ++
  "<generator>Beehiiv to Squarespace RSS Generator</generator>" ++ "\n    " ++
  "<ttl>60</ttl>" ++ items ++ "\n  </channel>\n</rss>"

/-- generateRSSFeed translates the renderer: currentDate is the wall
clock reading taken once at render start, fmtDate the Date to UTC string
conversion; posts are filtered, limited, mapped to items, joined with
the empty separator and spliced into the channel template. -/
def generateRSSFeed (fmtDate : String → String) (currentDate : String)
    (posts : List Post) (cfg : FeedConfig) : String :=
  channelXml cfg currentDate
    (String.join ((selectedPosts posts).map
      (itemXml fmtDate currentDate cfg.feedUrl cfg.authorEmail)))

/-- chanHead names the channel template text before the title element,
for stating where values land in the document. -/
def chanHead : String :=
  "<?xml version=\"1.0\" encoding=\"UTF-8\"?>\n<rss version=\"2.0\" xmlns:content=\"http://purl.org/rss/1.0/modules/content/\" xmlns:dc=\"http://purl.org/dc/elements/1.1/\">\n  <channel>\n    "

/-- chanAfterWebMaster names the channel template tail after the
webMaster element. -/
def chanAfterWebMaster (_cfg : FeedConfig) (_cd items : String) : String :=
  "\n    " ++ "<generator>Beehiiv to Squarespace RSS Generator</generator>" ++ "\n    " ++
  ("<ttl>60</ttl>" ++ items) ++ "\n  </channel>\n</rss>"

/-- chanAfterLanguage names the channel template tail after the language
element. -/
def chanAfterLanguage (cfg : FeedConfig) (cd items : String) : String :=
  "\n    " ++ ("<lastBuildDate>" ++ cd ++ "</lastBuildDate>") ++ "\n    " ++
  ("<managingEditor>" ++ cfg.authorEmail ++ "</managingEditor>") ++ "\n    " ++
  ("<webMaster>" ++ cfg.authorEmail ++ "</webMaster>") ++ chanAfterWebMaster cfg cd items

/-- chanAfterLink names the channel template tail after the link
element. -/
def chanAfterLink (cfg : FeedConfig) (cd items : String) : String :=
  "\n    " ++ ("<description>" ++ escapeXml cfg.description ++ "</description>") ++ "\n    " ++
  "<language>en-us</language>" ++ chanAfterLanguage cfg cd items

/-- itemAfterPubDate names the item template tail after the pubDate
element. -/
def itemAfterPubDate (_fmtDate : String → String) (_cd _feedUrl authorEmail : String)
    (p : Post) : String :=
  "\n      " ++ ("<author>" ++ authorEmail ++ "</author>") ++ "\n      " ++
  ("<description><![CDATA[" ++ itemContentOf p ++ "]]></description>") ++ "\n    </item>"

/-- itemAfterLink names the item template tail after the link element. -/
def itemAfterLink (fmtDate : String → String) (cd feedUrl authorEmail : String)
    (p : Post) : String :=
  "\n      " ++ ("<guid>" ++ postUrlOf feedUrl p ++ "</guid>") ++ "\n      " ++
  ("<pubDate>" ++ pubDateOf fmtDate cd p ++ "</pubDate>") ++
  itemAfterPubDate fmtDate cd feedUrl authorEmail p

/-- Env models the process environment: each variable is either unset or
a string. -/
structure Env where
  BEEHIIV_API_KEY : Option String
  BEEHIIV_PUBLICATION_ID : Option String
  FEED_TITLE : Option String
  FEED_DESCRIPTION : Option String
  FEED_URL : Option String
  AUTHOR_EMAIL : Option String
deriving DecidableEq

/-- FetchResult models the outcome the upstream fetch would deliver if it
were issued: the ok flag and status of the response, its body read as
text, a parse failure message when the json method would reject, and the
data field of the parsed body when it would resolve. -/
structure FetchResult where
  ok : Bool
  status : Nat
  bodyText : String
  jsonError : Option String
  dataField : Option (List Post)

/-- ErrorBody models the JSON error payload; timestamp is optional
because the configuration error path omits that field. -/
structure ErrorBody where
  error : String
  details : String
  timestamp : Option String
deriving DecidableEq

/-- HttpOut models the one response the handler writes: either a JSON
error body or a successful send with content type and cache headers. -/
inductive HttpOut where
  | jsonRes (status : Nat) (body : ErrorBody)
  | sendRes (status : Nat) (contentType cacheControl body : String)
deriving DecidableEq

/-- handler translates the request handler. The second component of the
result counts how many upstream fetches were issued: zero on the
configuration error path, one otherwise, there is no retry. currentDate
and nowISO are the wall clock readings used by the renderer and by the
catch branch, fmtDate the Date to UTC string conversion. -/
def handler (env : Env) (fr : FetchResult) (fmtDate : String → String)
    (currentDate nowISO : String) : HttpOut × Nat :=
  if !(jsTruthy env.BEEHIIV_API_KEY) || !(jsTruthy env.BEEHIIV_PUBLICATION_ID) then
    (HttpOut.jsonRes 500
      { error := "Missing required environment variables"
        details := "BEEHIIV_API_KEY and BEEHIIV_PUBLICATION_ID must be set in Vercel dashboard"
        timestamp := none }, 0)
  else if !fr.ok then
    (HttpOut.jsonRes 500
      { error := "Failed to generate RSS feed"
        details := "Beehiiv API responded with status: " ++ toString fr.status ++ " - " ++ fr.bodyText
        timestamp := some nowISO }, 1)
  else
    match fr.jsonError with
    | some msg =>
      (HttpOut.jsonRes 500
        { error := "Failed to generate RSS feed"
          details := msg
          timestamp := some nowISO }, 1)
    | none =>
      (HttpOut.sendRes 200 "application/rss+xml; charset=utf-8"
        "public, s-maxage=3600, stale-while-revalidate=86400"
        (generateRSSFeed fmtDate currentDate (fr.dataField.getD [])
          { title := jsOr env.FEED_TITLE "Your Newsletter"
            description := jsOr env.FEED_DESCRIPTION "Latest posts from your newsletter"
            feedUrl := jsOr env.FEED_URL "https://your-site.com"
            authorEmail := jsOr env.AUTHOR_EMAIL "your-email@domain.com" }), 1)

/-! Helper lemmas about substring occurrence. -/

/-- prefB decides whether one character list starts with another. -/
theorem prefB_iff (p : List Char) : ∀ s, prefB p s = true ↔ ∃ q, s = p ++ q := by
  induction p with
  | nil => intro s; simp [prefB]
  | cons a as ih =>
    intro s
    cases s with
    | nil =>
      simp [prefB]
    | cons b bs =>
      simp only [prefB, Bool.and_eq_true, beq_iff_eq, ih bs, List.cons_append,
        List.cons_eq_cons]
      constructor
      · rintro ⟨rfl, q, rfl⟩; exact ⟨q, rfl, rfl⟩
      · rintro ⟨q, rfl, rfl⟩; exact ⟨rfl, q, rfl⟩

/-- substrB decides contiguous substring occurrence. -/
theorem substrB_iff (pat : List Char) : ∀ s, substrB pat s = true ↔ ∃ u v, s = u ++ pat ++ v := by
  intro s
  induction s with
  | nil =>
    simp only [substrB, List.isEmpty_iff]
    constructor
    · intro h; exact ⟨[], [], by simp [h]⟩
    · rintro ⟨u, v, h⟩
      have h2 := List.append_eq_nil.mp h.symm
      exact (List.append_eq_nil.mp h2.1).2
  | cons c cs ih =>
    simp only [substrB, Bool.or_eq_true]
    constructor
    · rintro (h | h)
      · rcases (prefB_iff pat (c :: cs)).mp h with ⟨q, hq⟩
        exact ⟨[], q, by simp [hq]⟩
      · rcases ih.mp h with ⟨u, v, huv⟩
        exact ⟨c :: u, v, by simp [huv]⟩
    · rintro ⟨u, v, huv⟩
      cases u with
      | nil =>
        exact Or.inl ((prefB_iff pat (c :: cs)).mpr ⟨v, by simpa using huv⟩)
      | cons a u2 =>
        refine Or.inr (ih.mpr ⟨u2, v, ?_⟩)
        have h2 : c = a ∧ cs = u2 ++ pat ++ v := by
          simpa [List.cons_eq_cons] using huv
        simpa using h2.2

/-- substrStr lifts substrB to Lean strings: a string occurs inside
another exactly when the corresponding character lists do. -/
theorem substrStr (t s : String) :
    (∃ u v : String, s = u ++ t ++ v) ↔ substrB t.data s.data = true := by
  constructor
  · rintro ⟨u, v, rfl⟩
    exact (substrB_iff _ _).mpr ⟨u.data, v.data, by simp [String.data_append]⟩
  · intro h
    rcases (substrB_iff _ _).mp h with ⟨lu, lv, hl⟩
    refine ⟨String.mk lu, String.mk lv, String.ext ?_⟩
    simpa [String.data_append] using hl

/-! Helper lemmas about the escaping function. -/

/-- subst1 distributes over concatenation. -/
theorem subst1_append (f : Char → List Char) :
    ∀ a b, subst1 f (a ++ b) = subst1 f a ++ subst1 f b := by
  intro a b
  induction a with
  | nil => rfl
  | cons c cs ih => simp [subst1, ih]

/-- replaceChar distributes over concatenation. -/
theorem replaceChar_append (c : Char) (rep : List Char) :
    ∀ a b, replaceChar c rep (a ++ b) = replaceChar c rep a ++ replaceChar c rep b := by
  intro a b
  induction a with
  | nil => rfl
  | cons x xs ih =>
    by_cases h : x = c <;> simp [replaceChar, h, ih]

/-- escapeXmlL distributes over concatenation. -/
theorem escapeXmlL_append (a b : List Char) :
    escapeXmlL (a ++ b) = escapeXmlL a ++ escapeXmlL b := by
  simp [escapeXmlL, replaceChar_append]

/-- escapeXmlL agrees with the specification table on one character. -/
theorem escapeXmlL_single (c : Char) : escapeXmlL [c] = escCharSpec c := by
  by_cases h1 : c = '&'
  · subst h1; decide
  by_cases h2 : c = '<'
  · subst h2; decide
  by_cases h3 : c = '>'
  · subst h3; decide
  by_cases h4 : c = quoteChar
  · subst h4; decide
  by_cases h5 : c = aposChar
  · subst h5; decide
  simp [escapeXmlL, replaceChar, escCharSpec, h1, h2, h3, h4, h5]

/-- escapeXmlL is the single pass, character by character substitution
described by the spec: the five sequential replacements neither miss a
character nor touch the entities the earlier replacements introduced. -/
theorem escapeXmlL_eq (l : List Char) : escapeXmlL l = subst1 escCharSpec l := by
  induction l with
  | nil => rfl
  | cons c cs ih =>
    have h : c :: cs = [c] ++ cs := rfl
    rw [h, escapeXmlL_append, escapeXmlL_single]
    simp [subst1, ih]

/-! Helper lemmas about the block stripping scanner. -/

/-- afterMatch fails when the open tag does not match at this position. -/
theorem afterMatch_none (tag close s : List Char) (h : matchesCI tag s = false) :
    afterMatch tag close s = none := by
  simp [afterMatch, h]

/-- stripTagGo leaves a list without any case insensitive occurrence of
the open tag unchanged. -/
theorem stripTagGo_id (tag close : List Char) :
    ∀ fuel s, containsCI tag s = false → stripTagGo tag close fuel s = s := by
  intro fuel
  induction fuel with
  | zero => intro s _; rfl
  | succ n ih =>
    intro s hc
    cases s with
    | nil => rfl
    | cons c cs =>
      have hsplit : matchesCI tag (c :: cs) = false ∧ containsCI tag cs = false := by
        simpa [containsCI] using hc
      rw [stripTagGo, afterMatch_none tag close _ hsplit.1]
      rw [ih cs hsplit.2]

/-- cleanHtmlContent passes markup through untouched when the input
contains no script open tag and no style open tag, in any letter case. -/
theorem cleanHtmlContent_id (h : String)
    (hsc : containsCI ("<script".data) h.data = false)
    (hst : containsCI ("<style".data) h.data = false) :
    cleanHtmlContent h = h := by
  by_cases he : h = ""
  · subst he; rfl
  · have h1 : stripTag ("<script".data) ("</script>".data) h.data = h.data := by
      rw [stripTag, stripTagGo_id _ _ _ _ hsc]
    have h2 : stripTag ("<style".data) ("</style>".data) h.data = h.data := by
      rw [stripTag, stripTagGo_id _ _ _ _ hst]
    unfold cleanHtmlContent
    rw [if_neg he, h1, h2]

set_option maxRecDepth 400000

/-! Concrete inputs used by witnesses. -/

/-- demoConfirmed is a published post with every field present. -/
def demoConfirmed : Post :=
  ⟨some "a1", some "confirmed", some "2024-01-01", some "https://ex.com/a1",
    some "A", none, none⟩

/-- demoDraft is a post whose status is not confirmed. -/
def demoDraft : Post :=
  ⟨some "b1", some "draft", some "2024-01-02", some "https://ex.com/b1",
    some "B", none, none⟩

/-- demoBare is a published post with the optional fields absent. -/
def demoBare : Post :=
  ⟨some "xyz", some "confirmed", none, none, none, none, none⟩

/-- demoContent is a published post whose free web content holds a
script block. -/
def demoContent : Post :=
  ⟨some "i1", some "confirmed", none, none, none, none,
    some ⟨some ⟨some "<p>hi</p><script>alert(1)</script>"⟩⟩⟩

/-- C3: the escaping function substitutes the ampersand first and the
other four special characters afterwards, which makes it the character
by character substitution escCharSpec: every occurrence of one of the
five characters becomes its entity exactly once (no double escaping, the
entities the later substitutions introduce are not re-escaped), and for
every special character of the input the escaped entity occurs in the
output. -/
theorem c3_escape_single_pass (s : String) (c : Char) (hc : c ∈ s.data) :
    escapeXml s = String.mk (subst1 escCharSpec s.data) ∧
    ∃ u v : List Char, (escapeXml s).data = u ++ escCharSpec c ++ v := by
  have hmain : escapeXml s = String.mk (subst1 escCharSpec s.data) := by
    by_cases h : s = ""
    · subst h; rfl
    · simp [escapeXml, h, escapeXmlL_eq]
  refine ⟨hmain, ?_⟩
  rcases List.append_of_mem hc with ⟨l1, l2, hl⟩
  refine ⟨subst1 escCharSpec l1, subst1 escCharSpec l2, ?_⟩
  rw [hmain]
  show subst1 escCharSpec s.data = _
  rw [hl, subst1_append]
  simp [subst1]

/-- Witness for C3 at the input a ampersand b. -/
theorem c3_escape_single_pass_witness :
    (aposChar ∈ (String.mk ['a', aposChar, 'b']).data) ∧
    escapeXml (String.mk ['a', aposChar, 'b']) =
      String.mk (subst1 escCharSpec (String.mk ['a', aposChar, 'b']).data) ∧
    (∃ u v : List Char, (escapeXml (String.mk ['a', aposChar, 'b'])).data =
      u ++ escCharSpec aposChar ++ v) ∧
    escapeXml (String.mk ['a', aposChar, 'b']) = "a&#39;b" :=
  ⟨by decide, (c3_escape_single_pass _ aposChar (by decide)).1,
    (c3_escape_single_pass _ aposChar (by decide)).2, by decide⟩

/-- C2: the renderer keeps the selected posts a sublist of the input
(order preserved, no duplication, nothing invented), selects only posts
with status confirmed, truncates to at most the first twenty confirmed
posts, keeps every confirmed post when at most twenty are confirmed, and
the rendered feed is the channel around exactly one item per selected
post. -/
theorem c2_filter_order_limit (posts : List Post) :
    (selectedPosts posts).Sublist posts ∧
    (∀ p, p ∈ selectedPosts posts → p.status = some "confirmed") ∧
    (selectedPosts posts).length =
      min 20 (posts.filter (fun p => p.status == some "confirmed")).length ∧
    ((posts.filter (fun p => p.status == some "confirmed")).length ≤ 20 →
      selectedPosts posts = posts.filter (fun p => p.status == some "confirmed")) ∧
    (∀ fmtDate cd cfg, generateRSSFeed fmtDate cd posts cfg =
      channelXml cfg cd (String.join ((selectedPosts posts).map
        (itemXml fmtDate cd cfg.feedUrl cfg.authorEmail)))) := by
  refine ⟨?_, ?_, ?_, ?_, fun _ _ _ => rfl⟩
  · exact (List.take_sublist _ _).trans (List.filter_sublist _)
  · intro p hp
    have h1 : p ∈ posts.filter (fun p => p.status == some "confirmed") :=
      List.take_subset _ _ hp
    simpa using (List.mem_filter.mp h1).2
  · simp [selectedPosts, List.length_take]
  · intro hle
    exact List.take_of_length_le hle

/-- Witness for C2 on a three post list with one draft. -/
theorem c2_filter_order_limit_witness :
    (demoConfirmed ∈ selectedPosts [demoConfirmed, demoDraft, demoBare]) ∧
    demoConfirmed.status = some "confirmed" ∧
    (([demoConfirmed, demoDraft, demoBare].filter
        (fun p => p.status == some "confirmed")).length ≤ 20) ∧
    selectedPosts [demoConfirmed, demoDraft, demoBare] =
      [demoConfirmed, demoDraft, demoBare].filter
        (fun p => p.status == some "confirmed") :=
  ⟨by decide, (c2_filter_order_limit [demoConfirmed, demoDraft, demoBare]).2.1
      demoConfirmed (by decide), by decide,
    (c2_filter_order_limit [demoConfirmed, demoDraft, demoBare]).2.2.2.1 (by decide)⟩

/-- C4: with either required environment variable absent the handler
answers 500 with the JSON body holding exactly an error and a details
field (no timestamp), the details naming both required variables, and
the upstream fetch is never issued. -/
theorem c4_missing_config (env : Env) (fr : FetchResult) (fmtDate : String → String)
    (cd iso : String)
    (h : env.BEEHIIV_API_KEY = none ∨ env.BEEHIIV_PUBLICATION_ID = none) :
    handler env fr fmtDate cd iso =
      (HttpOut.jsonRes 500
        { error := "Missing required environment variables"
          details := "BEEHIIV_API_KEY and BEEHIIV_PUBLICATION_ID must be set in Vercel dashboard"
          timestamp := none }, 0) ∧
    (∃ u v : String,
      "BEEHIIV_API_KEY and BEEHIIV_PUBLICATION_ID must be set in Vercel dashboard" =
        u ++ "BEEHIIV_API_KEY" ++ v) ∧
    (∃ u v : String,
      "BEEHIIV_API_KEY and BEEHIIV_PUBLICATION_ID must be set in Vercel dashboard" =
        u ++ "BEEHIIV_PUBLICATION_ID" ++ v) := by
  refine ⟨?_, ⟨"", " and BEEHIIV_PUBLICATION_ID must be set in Vercel dashboard", by decide⟩,
    ⟨"BEEHIIV_API_KEY and ", " must be set in Vercel dashboard", by decide⟩⟩
  rcases h with h | h <;> simp [handler, jsTruthy, h]

/-- Witness for C4: key unset, publication id present, no fetch. -/
theorem c4_missing_config_witness :
    handler ⟨none, some "pub", none, none, none, none⟩
        ⟨true, 200, "", none, some []⟩ (fun d => d) "CD" "ISO" =
      (HttpOut.jsonRes 500
        { error := "Missing required environment variables"
          details := "BEEHIIV_API_KEY and BEEHIIV_PUBLICATION_ID must be set in Vercel dashboard"
          timestamp := none }, 0) :=
  (c4_missing_config _ _ _ _ _ (Or.inl rfl)).1

/-- C10: a required environment variable set to the empty string is
treated exactly like an absent one, because the check is a JavaScript
falsiness check: same 500 configuration error body and no fetch. -/
theorem c10_empty_config (env : Env) (fr : FetchResult) (fmtDate : String → String)
    (cd iso : String)
    (h : env.BEEHIIV_API_KEY = some "" ∨ env.BEEHIIV_PUBLICATION_ID = some "") :
    handler env fr fmtDate cd iso =
      (HttpOut.jsonRes 500
        { error := "Missing required environment variables"
          details := "BEEHIIV_API_KEY and BEEHIIV_PUBLICATION_ID must be set in Vercel dashboard"
          timestamp := none }, 0) := by
  rcases h with h | h <;> simp [handler, jsTruthy, h]

/-- Witness for C10: key set to the empty string, publication id
present. -/
theorem c10_empty_config_witness :
    handler ⟨some "", some "pub", none, none, none, none⟩
        ⟨true, 200, "", none, some []⟩ (fun d => d) "CD" "ISO" =
      (HttpOut.jsonRes 500
        { error := "Missing required environment variables"
          details := "BEEHIIV_API_KEY and BEEHIIV_PUBLICATION_ID must be set in Vercel dashboard"
          timestamp := none }, 0) :=
  c10_empty_config _ _ _ _ _ (Or.inl rfl)

/-- C5: on an upstream response that is not ok the handler reads the
body text and answers 500 with the generic error, a timestamp, and
details embedding both the numeric upstream status and the body text;
exactly one fetch was issued, none is retried. -/
theorem c5_upstream_failure (env : Env) (fr : FetchResult) (fmtDate : String → String)
    (cd iso : String)
    (h1 : jsTruthy env.BEEHIIV_API_KEY = true)
    (h2 : jsTruthy env.BEEHIIV_PUBLICATION_ID = true)
    (h3 : fr.ok = false) :
    handler env fr fmtDate cd iso =
      (HttpOut.jsonRes 500
        { error := "Failed to generate RSS feed"
          details := "Beehiiv API responded with status: " ++ toString fr.status ++
            " - " ++ fr.bodyText
          timestamp := some iso }, 1) ∧
    (∃ u v : String,
      "Beehiiv API responded with status: " ++ toString fr.status ++ " - " ++ fr.bodyText =
        u ++ toString fr.status ++ v) ∧
    (∃ u v : String,
      "Beehiiv API responded with status: " ++ toString fr.status ++ " - " ++ fr.bodyText =
        u ++ fr.bodyText ++ v) ∧
    (handler env fr fmtDate cd iso).2 ≤ 1 := by
  have hmain : handler env fr fmtDate cd iso =
      (HttpOut.jsonRes 500
        { error := "Failed to generate RSS feed"
          details := "Beehiiv API responded with status: " ++ toString fr.status ++
            " - " ++ fr.bodyText
          timestamp := some iso }, 1) := by
    simp [handler, h1, h2, h3]
  refine ⟨hmain,
    ⟨"Beehiiv API responded with status: ", " - " ++ fr.bodyText, by
      simp [String.append_assoc]⟩,
    ⟨"Beehiiv API responded with status: " ++ toString fr.status ++ " - ", "", by
      simp [String.append_assoc]⟩, ?_⟩
  rw [hmain]

/-- Witness for C5 at upstream status 503 with body rate limited. -/
theorem c5_upstream_failure_witness :
    handler ⟨some "k", some "p", none, none, none, none⟩
        ⟨false, 503, "rate limited", none, none⟩ (fun d => d) "CD" "ISO" =
      (HttpOut.jsonRes 500
        { error := "Failed to generate RSS feed"
          details := "Beehiiv API responded with status: 503 - rate limited"
          timestamp := some "ISO" }, 1) ∧
    (∃ u v : String, "Beehiiv API responded with status: 503 - rate limited" =
      u ++ "503" ++ v) ∧
    (∃ u v : String, "Beehiiv API responded with status: 503 - rate limited" =
      u ++ "rate limited" ++ v) := by
  have h := c5_upstream_failure ⟨some "k", some "p", none, none, none, none⟩
    ⟨false, 503, "rate limited", none, none⟩ (fun d => d) "CD" "ISO"
    (by decide) (by decide) rfl
  exact ⟨h.1, h.2.1, h.2.2.1⟩

/-- C6: per item fallbacks. A post without web url gets the constructed
link, used for both link and guid; a post without publish date gets the
render start time as pubDate; a post without title gets the literal
Untitled Post, which XML escaping leaves unchanged. -/
theorem c6_item_fallbacks (fmtDate : String → String) (cd feedUrl authorEmail : String)
    (p : Post) :
    (p.web_url = none → postUrlOf feedUrl p = feedUrl ++ "/post/" ++ idString p) ∧
    (p.publish_date = none → pubDateOf fmtDate cd p = cd) ∧
    (p.title = none → itemTitleOf p = "Untitled Post") ∧
    (∃ u v w : String, itemXml fmtDate cd feedUrl authorEmail p =
      u ++ ("<link>" ++ postUrlOf feedUrl p ++ "</link>") ++
      v ++ ("<guid>" ++ postUrlOf feedUrl p ++ "</guid>") ++ w) := by
  refine ⟨?_, ?_, ?_, ?_⟩
  · intro h; simp [postUrlOf, jsOr, h]
  · intro h; simp [pubDateOf, h]
  · intro h
    have h2 : itemTitleOf p = escapeXml "Untitled Post" := by
      simp [itemTitleOf, jsOr, h]
    rw [h2]; decide
  · refine ⟨"\n    <item>\n      " ++ ("<title>" ++ itemTitleOf p ++ "</title>") ++ "\n      ",
      "\n      ",
      "\n      " ++ ("<pubDate>" ++ pubDateOf fmtDate cd p ++ "</pubDate>") ++ "\n      " ++
        ("<author>" ++ authorEmail ++ "</author>") ++ "\n      " ++
        ("<description><![CDATA[" ++ itemContentOf p ++ "]]></description>") ++
        "\n    </item>", ?_⟩
    apply String.ext
    simp only [itemXml, String.data_append, List.append_assoc]

/-- Witness for C6 at a post with id xyz and the optional fields
absent. -/
theorem c6_item_fallbacks_witness :
    postUrlOf "https://f" demoBare = "https://f" ++ "/post/" ++ idString demoBare ∧
    pubDateOf (fun d => d) "CD" demoBare = "CD" ∧
    itemTitleOf demoBare = "Untitled Post" :=
  ⟨(c6_item_fallbacks (fun d => d) "CD" "https://f" "e" demoBare).1 rfl,
    (c6_item_fallbacks (fun d => d) "CD" "https://f" "e" demoBare).2.1 rfl,
    (c6_item_fallbacks (fun d => d) "CD" "https://f" "e" demoBare).2.2.1 rfl⟩

/-- C7: the item description is the free web content when truthy, else
the subtitle when truthy, else empty, passed through cleanHtmlContent
and spliced into a CDATA section without XML escaping; cleanHtmlContent
leaves input without script or style open tags untouched, and on the
spec example it removes exactly the script block. -/
theorem c7_description_cdata (fmtDate : String → String) (cd feedUrl authorEmail : String)
    (p : Post) (h : String)
    (hsc : containsCI ("<script".data) h.data = false)
    (hst : containsCI ("<style".data) h.data = false) :
    (∃ u v : String, itemXml fmtDate cd feedUrl authorEmail p =
      u ++ ("<description><![CDATA[" ++ itemContentOf p ++ "]]></description>") ++ v) ∧
    (∀ w, contentWeb p = some w → w ≠ "" → itemContentOf p = cleanHtmlContent w) ∧
    (∀ st, contentWeb p = none → p.subtitle = some st → st ≠ "" →
      itemContentOf p = cleanHtmlContent st) ∧
    (contentWeb p = none → p.subtitle = none → itemContentOf p = "") ∧
    cleanHtmlContent h = h ∧
    cleanHtmlContent "<p>hi</p><script>alert(1)</script>" = "<p>hi</p>" := by
  refine ⟨?_, ?_, ?_, ?_, cleanHtmlContent_id h hsc hst, by decide⟩
  · refine ⟨"\n    <item>\n      " ++ ("<title>" ++ itemTitleOf p ++ "</title>") ++ "\n      " ++
      ("<link>" ++ postUrlOf feedUrl p ++ "</link>") ++ "\n      " ++
      ("<guid>" ++ postUrlOf feedUrl p ++ "</guid>") ++ "\n      " ++
      ("<pubDate>" ++ pubDateOf fmtDate cd p ++ "</pubDate>") ++ "\n      " ++
      ("<author>" ++ authorEmail ++ "</author>") ++ "\n      ",
      "\n    </item>", ?_⟩
    apply String.ext
    simp only [itemXml, String.data_append, List.append_assoc]
  · intro w hw hne
    simp [itemContentOf, jsOr, hw, hne]
  · intro st hw hst2 hne
    simp [itemContentOf, jsOr, hw, hst2, hne]
  · intro hw hsub
    simp [itemContentOf, jsOr, hw, hsub, cleanHtmlContent]

/-- Witness for C7 at the spec example content and a benign string. -/
theorem c7_description_cdata_witness :
    itemContentOf demoContent = cleanHtmlContent "<p>hi</p><script>alert(1)</script>" ∧
    cleanHtmlContent "<b>x</b>" = "<b>x</b>" ∧
    cleanHtmlContent "<p>hi</p><script>alert(1)</script>" = "<p>hi</p>" := by
  have H := c7_description_cdata (fun d => d) "CD" "F" "E" demoContent "<b>x</b>"
    (by decide) (by decide)
  exact ⟨H.2.1 _ rfl (by decide), H.2.2.2.2.1, H.2.2.2.2.2⟩

/-- C8: when no post qualifies the renderer still succeeds and returns
the channel document with an empty items section; the channel children
occur in the fixed order title, link, description, language en-us,
lastBuildDate, managingEditor, webMaster, generator, ttl 60, then the
items; each item lists title, link, guid, pubDate, author, description
in that order. -/
theorem c8_document_assembly (fmtDate : String → String) (cd items : String)
    (cfg : FeedConfig) (posts : List Post) (p : Post) (feedUrl authorEmail : String)
    (hzero : posts.filter (fun q => q.status == some "confirmed") = []) :
    generateRSSFeed fmtDate cd posts cfg = channelXml cfg cd "" ∧
    (∃ s0 s1 s2 s3 s4 s5 s6 s7 s8 s9 : String, channelXml cfg cd items =
      s0 ++ ("<title>" ++ escapeXml cfg.title ++ "</title>") ++
      s1 ++ ("<link>" ++ cfg.feedUrl ++ "</link>") ++
      s2 ++ ("<description>" ++ escapeXml cfg.description ++ "</description>") ++
      s3 ++ "<language>en-us</language>" ++
      s4 ++ ("<lastBuildDate>" ++ cd ++ "</lastBuildDate>") ++
      s5 ++ ("<managingEditor>" ++ cfg.authorEmail ++ "</managingEditor>") ++
      s6 ++ ("<webMaster>" ++ cfg.authorEmail ++ "</webMaster>") ++
      s7 ++ "<generator>Beehiiv to Squarespace RSS Generator</generator>" ++
      s8 ++ ("<ttl>60</ttl>" ++ items) ++ s9) ∧
    (∃ t0 t1 t2 t3 t4 t5 t6 : String, itemXml fmtDate cd feedUrl authorEmail p =
      t0 ++ ("<title>" ++ itemTitleOf p ++ "</title>") ++
      t1 ++ ("<link>" ++ postUrlOf feedUrl p ++ "</link>") ++
      t2 ++ ("<guid>" ++ postUrlOf feedUrl p ++ "</guid>") ++
      t3 ++ ("<pubDate>" ++ pubDateOf fmtDate cd p ++ "</pubDate>") ++
      t4 ++ ("<author>" ++ authorEmail ++ "</author>") ++
      t5 ++ ("<description><![CDATA[" ++ itemContentOf p ++ "]]></description>") ++ t6) := by
  refine ⟨?_, ?_, ?_⟩
  · simp [generateRSSFeed, selectedPosts, hzero, String.join]
  · refine ⟨"<?xml version=\"1.0\" encoding=\"UTF-8\"?>\n<rss version=\"2.0\" xmlns:content=\"http://purl.org/rss/1.0/modules/content/\" xmlns:dc=\"http://purl.org/dc/elements/1.1/\">\n  <channel>\n    ",
      "\n    ", "\n    ", "\n    ", "\n    ", "\n    ", "\n    ", "\n    ", "\n    ",
      "\n  </channel>\n</rss>", ?_⟩
    apply String.ext
    simp only [channelXml, String.data_append, List.append_assoc]
  · refine ⟨"\n    <item>\n      ", "\n      ", "\n      ", "\n      ", "\n      ",
      "\n      ", "\n    </item>", ?_⟩
    apply String.ext
    simp only [itemXml, String.data_append, List.append_assoc]

/-- Witness for C8 on a list holding one draft post only. -/
theorem c8_document_assembly_witness :
    generateRSSFeed (fun d => d) "CD" [demoDraft] ⟨"T", "D", "F", "E"⟩ =
      channelXml ⟨"T", "D", "F", "E"⟩ "CD" "" :=
  (c8_document_assembly (fun d => d) "CD" "" ⟨"T", "D", "F", "E"⟩ [demoDraft]
    demoDraft "F" "E" (by decide)).1

/-- C1 counterexample: with feed url a ampersand b the rendered document
contains the raw, unescaped link element and does not contain the
escaped form the claim requires, so escaping is not applied to every
non CDATA value before insertion. -/
theorem c1_counterexample :
    (∃ u v : String, generateRSSFeed (fun d => d) "D" [] ⟨"t", "d", "a&b", "e"⟩ =
      u ++ "<link>a&b</link>" ++ v) ∧
    ¬ (∃ u v : String, generateRSSFeed (fun d => d) "D" [] ⟨"t", "d", "a&b", "e"⟩ =
      u ++ "<link>a&amp;b</link>" ++ v) := by
  rw [substrStr, substrStr]
  constructor
  · decide
  · decide

/-- C1 amended: XML escaping is applied to exactly three of the inserted
values, the channel title, the channel description and each item title;
the feed url, the managingEditor, webMaster and author emails, the item
link and guid and the pubDate are inserted verbatim without escaping. -/
theorem c1_escaping_coverage (fmtDate : String → String) (cd items : String)
    (cfg : FeedConfig) (p : Post) (feedUrl authorEmail : String) :
    (∃ u v, channelXml cfg cd items = u ++ ("<title>" ++ escapeXml cfg.title ++ "</title>") ++ v) ∧
    (∃ u v, channelXml cfg cd items = u ++ ("<link>" ++ cfg.feedUrl ++ "</link>") ++ v) ∧
    (∃ u v, channelXml cfg cd items =
      u ++ ("<description>" ++ escapeXml cfg.description ++ "</description>") ++ v) ∧
    (∃ u v, channelXml cfg cd items =
      u ++ ("<managingEditor>" ++ cfg.authorEmail ++ "</managingEditor>") ++ v) ∧
    (∃ u v, channelXml cfg cd items =
      u ++ ("<webMaster>" ++ cfg.authorEmail ++ "</webMaster>") ++ v) ∧
    (∃ u v, itemXml fmtDate cd feedUrl authorEmail p =
      u ++ ("<title>" ++ escapeXml (jsOr p.title "Untitled Post") ++ "</title>") ++ v) ∧
    (∃ u v, itemXml fmtDate cd feedUrl authorEmail p =
      u ++ ("<link>" ++ postUrlOf feedUrl p ++ "</link>") ++ v) ∧
    (∃ u v, itemXml fmtDate cd feedUrl authorEmail p =
      u ++ ("<guid>" ++ postUrlOf feedUrl p ++ "</guid>") ++ v) ∧
    (∃ u v, itemXml fmtDate cd feedUrl authorEmail p =
      u ++ ("<pubDate>" ++ pubDateOf fmtDate cd p ++ "</pubDate>") ++ v) ∧
    (∃ u v, itemXml fmtDate cd feedUrl authorEmail p =
      u ++ ("<author>" ++ authorEmail ++ "</author>") ++ v) := by
  refine ⟨⟨chanHead, "\n    " ++ ("<link>" ++ cfg.feedUrl ++ "</link>") ++ chanAfterLink cfg cd items, ?_⟩,
    ⟨chanHead ++ ("<title>" ++ escapeXml cfg.title ++ "</title>") ++ "\n    ",
      chanAfterLink cfg cd items, ?_⟩,
    ⟨chanHead ++ ("<title>" ++ escapeXml cfg.title ++ "</title>") ++ "\n    " ++
      ("<link>" ++ cfg.feedUrl ++ "</link>") ++ "\n    ",
      "\n    " ++ "<language>en-us</language>" ++ chanAfterLanguage cfg cd items, ?_⟩,
    ⟨chanHead ++ ("<title>" ++ escapeXml cfg.title ++ "</title>") ++ "\n    " ++
      ("<link>" ++ cfg.feedUrl ++ "</link>") ++ "\n    " ++
      ("<description>" ++ escapeXml cfg.description ++ "</description>") ++ "\n    " ++
      "<language>en-us</language>" ++ "\n    " ++
      ("<lastBuildDate>" ++ cd ++ "</lastBuildDate>") ++ "\n    ",
      "\n    " ++ ("<webMaster>" ++ cfg.authorEmail ++ "</webMaster>") ++ chanAfterWebMaster cfg cd items, ?_⟩,
    ⟨chanHead ++ ("<title>" ++ escapeXml cfg.title ++ "</title>") ++ "\n    " ++
      ("<link>" ++ cfg.feedUrl ++ "</link>") ++ "\n    " ++
      ("<description>" ++ escapeXml cfg.description ++ "</description>") ++ "\n    " ++
      "<language>en-us</language>" ++ "\n    " ++
      ("<lastBuildDate>" ++ cd ++ "</lastBuildDate>") ++ "\n    " ++
      ("<managingEditor>" ++ cfg.authorEmail ++ "</managingEditor>") ++ "\n    ",
      chanAfterWebMaster cfg cd items, ?_⟩,
    ⟨"\n    <item>\n      ", "\n      " ++ ("<link>" ++ postUrlOf feedUrl p ++ "</link>") ++
      itemAfterLink fmtDate cd feedUrl authorEmail p, ?_⟩,
    ⟨"\n    <item>\n      " ++ ("<title>" ++ itemTitleOf p ++ "</title>") ++ "\n      ",
      itemAfterLink fmtDate cd feedUrl authorEmail p, ?_⟩,
    ⟨"\n    <item>\n      " ++ ("<title>" ++ itemTitleOf p ++ "</title>") ++ "\n      " ++
      ("<link>" ++ postUrlOf feedUrl p ++ "</link>") ++ "\n      ",
      "\n      " ++ ("<pubDate>" ++ pubDateOf fmtDate cd p ++ "</pubDate>") ++
        itemAfterPubDate fmtDate cd feedUrl authorEmail p, ?_⟩,
    ⟨"\n    <item>\n      " ++ ("<title>" ++ itemTitleOf p ++ "</title>") ++ "\n      " ++
      ("<link>" ++ postUrlOf feedUrl p ++ "</link>") ++ "\n      " ++
      ("<guid>" ++ postUrlOf feedUrl p ++ "</guid>") ++ "\n      ",
      itemAfterPubDate fmtDate cd feedUrl authorEmail p, ?_⟩,
    ⟨"\n    <item>\n      " ++ ("<title>" ++ itemTitleOf p ++ "</title>") ++ "\n      " ++
      ("<link>" ++ postUrlOf feedUrl p ++ "</link>") ++ "\n      " ++
      ("<guid>" ++ postUrlOf feedUrl p ++ "</guid>") ++ "\n      " ++
      ("<pubDate>" ++ pubDateOf fmtDate cd p ++ "</pubDate>") ++ "\n      ",
      "\n      " ++ ("<description><![CDATA[" ++ itemContentOf p ++ "]]></description>") ++
        "\n    </item>", ?_⟩⟩ <;>
  · apply String.ext
    simp only [channelXml, itemXml, itemTitleOf, chanHead, chanAfterLink, chanAfterLanguage,
      chanAfterWebMaster, itemAfterLink, itemAfterPubDate, String.data_append, List.append_assoc]

/-- itemXml does not depend on the render start time when the post has a
truthy publish date. -/
theorem itemXml_t_indep (fmtDate : String → String) (feedUrl authorEmail : String)
    (p : Post) (hp : jsTruthy p.publish_date = true) (t t2 : String) :
    itemXml fmtDate t feedUrl authorEmail p = itemXml fmtDate t2 feedUrl authorEmail p := by
  have hd : pubDateOf fmtDate t p = pubDateOf fmtDate t2 p := by
    cases hx : p.publish_date with
    | none => rw [hx] at hp; simp [jsTruthy] at hp
    | some d =>
      have hne : ¬ (d = "") := by
        rw [hx] at hp; simpa [jsTruthy] using hp
      simp [pubDateOf, hx, hne]
  simp [itemXml, hd]

/-- C9 counterexample: for the concrete one post list whose post lacks a
publish date, the rendered output has no decomposition with a single
time dependent slot, because the render start time is inserted both as
lastBuildDate and as the pubDate fallback; so two calls at different
times do not differ only in the lastBuildDate field. -/
theorem c9_counterexample :
    ¬ ∃ a b : String, ∀ t : String,
      generateRSSFeed (fun d => d) t
        [⟨some "p1", some "confirmed", none, none, some "T", none, none⟩]
        ⟨"t", "d", "f", "e"⟩ = a ++ t ++ b := by
  rintro ⟨a, b, hab⟩
  have e1 : (generateRSSFeed (fun d => d) "x"
      [⟨some "p1", some "confirmed", none, none, some "T", none, none⟩]
      ⟨"t", "d", "f", "e"⟩).length = 684 := by decide
  have e2 : (generateRSSFeed (fun d => d) "xy"
      [⟨some "p1", some "confirmed", none, none, some "T", none, none⟩]
      ⟨"t", "d", "f", "e"⟩).length = 686 := by decide
  rw [hab "x"] at e1
  rw [hab "xy"] at e2
  rw [String.length_append, String.length_append] at e1 e2
  have hx : ("x" : String).length = 1 := rfl
  have hxy : ("xy" : String).length = 2 := rfl
  rw [hx] at e1
  rw [hxy] at e2
  omega

/-- C9 amended: the renderer is a deterministic function of posts,
configuration and the render start time, and when every selected post
has a truthy publish date the time reaches exactly one output position,
the lastBuildDate element: the parts before and after it do not depend
on the time. -/
theorem c9_time_dependence (fmtDate : String → String) (posts : List Post)
    (cfg : FeedConfig)
    (h : ∀ p ∈ selectedPosts posts, jsTruthy p.publish_date = true) :
    ∃ a b : String, ∀ t : String,
      generateRSSFeed fmtDate t posts cfg =
        a ++ "<lastBuildDate>" ++ t ++ "</lastBuildDate>" ++ b := by
  refine ⟨chanHead ++ ("<title>" ++ escapeXml cfg.title ++ "</title>") ++ "\n    " ++
      ("<link>" ++ cfg.feedUrl ++ "</link>") ++ "\n    " ++
      ("<description>" ++ escapeXml cfg.description ++ "</description>") ++ "\n    " ++
      "<language>en-us</language>" ++ "\n    ",
    "\n    " ++ ("<managingEditor>" ++ cfg.authorEmail ++ "</managingEditor>") ++ "\n    " ++
      ("<webMaster>" ++ cfg.authorEmail ++ "</webMaster>") ++ "\n    " ++
      "<generator>Beehiiv to Squarespace RSS Generator</generator>" ++ "\n    " ++
      ("<ttl>60</ttl>" ++ String.join ((selectedPosts posts).map
        (itemXml fmtDate "" cfg.feedUrl cfg.authorEmail))) ++ "\n  </channel>\n</rss>",
    fun t => ?_⟩
  have hmap : (selectedPosts posts).map (itemXml fmtDate t cfg.feedUrl cfg.authorEmail) =
      (selectedPosts posts).map (itemXml fmtDate "" cfg.feedUrl cfg.authorEmail) :=
    List.map_congr_left fun p hp =>
      itemXml_t_indep fmtDate cfg.feedUrl cfg.authorEmail p (h p hp) t ""
  apply String.ext
  simp only [generateRSSFeed, channelXml, chanHead, hmap, String.data_append,
    List.append_assoc]

/-- Witness for the amended C9 on a one post list whose post has a
publish date. -/
theorem c9_time_dependence_witness :
    ∃ a b : String, ∀ t : String,
      generateRSSFeed (fun d => d) t [demoConfirmed] ⟨"T", "D", "F", "E"⟩ =
        a ++ "<lastBuildDate>" ++ t ++ "</lastBuildDate>" ++ b :=
  c9_time_dependence (fun d => d) [demoConfirmed] ⟨"T", "D", "F", "E"⟩ (by decide)
